import Mathlib

/-!
Shallow embedding of the `safe-singleton-factory` pre-deployment registrar.

Two near-identical pipeline variants exist in the repository:
* variant A, `src/scripts/add-predeployment.ts`: the RPC endpoint comes from the
  `RPC` environment variable, the chainlist check can be bypassed with
  `SKIP_CHAINLIST_CHECK=true`, and errors are `PredeploymentError` values
  carrying an HTML-flavoured comment;
* variant B, `src/unnamed/part_000`: the chainlist check is mandatory, the RPC
  endpoint is extracted from the matched chainlist entry, and errors are plain
  message strings.

External collaborators (the file system, the HTTP fetch of the chainlist, the
JSON-RPC provider, `ethers.utils.keccak256`) are modelled as explicit oracle
data inside a `World` value; the pipeline itself is a pure function of the
world and the starting file-system state.
-/

set_option maxHeartbeats 1000000
set_option maxRecDepth 100000

namespace SafeSingletonFactory

/-! ## JavaScript primitives used by the scripts -/

/-- Truthiness of an optional environment string in JavaScript:
`undefined` and the empty string are falsy, every other string is truthy. -/
def envTruthy : Option String → Bool
  | none => false
  | some s => s != ""

/-- Drop the leading whitespace of a character list, as `parseInt` does before
reading an optional sign and the digits. -/
def skipWs : List Char → List Char
  | [] => []
  | c :: cs => if c.isWhitespace then skipWs cs else c :: cs

/-- Decimal value of a list of digit characters. -/
def digitsToNat (ds : List Char) : Nat :=
  ds.foldl (fun acc c => 10 * acc + (c.toNat - 48)) 0

/-- JavaScript `parseInt(s, 10)`: skip leading whitespace, read an optional
sign, then the maximal prefix of decimal digits; `none` models `NaN` (no digit
found).  Trailing garbage after the digits is ignored, exactly as in JS. -/
def jsParseInt10 (s : String) : Option Int :=
  let cs := skipWs s.data
  let signRest : Int × List Char :=
    match cs with
    | '-' :: t => (-1, t)
    | '+' :: t => (1, t)
    | _ => (1, cs)
  let ds := signRest.2.takeWhile Char.isDigit
  if ds.isEmpty then none else some (signRest.1 * (digitsToNat ds : Int))

/-- Hexadecimal digit. -/
def isHexDigitChar (c : Char) : Bool :=
  c.isDigit || (97 ≤ c.toNat && c.toNat ≤ 102) || (65 ≤ c.toNat && c.toNat ≤ 70)

/-- JavaScript `s.startsWith(p)`. -/
def jsStartsWith (s p : String) : Bool :=
  p.data.isPrefixOf s.data

/-- Model of `ethers.utils.isHexString`: a `0x` prefixed string of hex digits. -/
def isHexString (s : String) : Bool :=
  match s.data with
  | '0' :: 'x' :: rest => rest.all isHexDigitChar
  | _ => false

/-- Model of `ethers.utils.hexDataLength`: the byte length of a well-formed even-length
hex data string, `none` (JavaScript `null`) otherwise. -/
def hexDataLength (s : String) : Option Nat :=
  if !isHexString s || s.data.length % 2 != 0 then none
  else some ((s.data.length - 2) / 2)

/-- Substring test: `pat` occurs somewhere inside `s`. -/
def strContains (s pat : String) : Bool :=
  s.data.tails.any (fun t => pat.data.isPrefixOf t)

/-! ## Constants

`ADDRESS` and `CODEHASH` are imported by both scripts from `./constants`,
a file that is not part of the corpus; their concrete values never matter to
the claims, only that they are fixed strings. -/

/-- Modelled from the spec: `ADDRESS` from `constants.ts` (not in `src/`), the
fixed well-known address of the Safe Singleton Factory. -/
def ADDRESS : String := "0x914d7Fec6aaC8cd542e72Bca78B30650d45643d7"

/-- Modelled from the spec: `CODEHASH` from `constants.ts` (not in `src/`), the
fixed expected Keccak-256 hash constant of the factory bytecode; its value is
opaque to the pipeline logic. -/
def CODEHASH : String :=
  "0x4a94c18c2653cdf7c70ad192a28a6a384ddb04fde561218741a2b6b6d4c201d2"

/-- The fixed pre-deployment artifact record (both variants, lines 14-20). -/
structure PredeploymentArtifact where
  gasPrice : Nat
  gasLimit : Nat
  signerAddress : String
  transaction : String
  address : String
deriving DecidableEq, Repr

/-- The constant `PREDEPLOYMENT_ARTIFACT` from the source. -/
def PREDEPLOYMENT_ARTIFACT : PredeploymentArtifact :=
  { gasPrice := 0
    gasLimit := 0
    signerAddress := "0x0000000000000000000000000000000000000000"
    transaction := "0x"
    address := ADDRESS }

/-- Model of `JSON.stringify(artifact, null, "\t")`: tab-indented JSON of the fixed
artifact record, field order as declared. -/
def stringifyArtifactTabs (a : PredeploymentArtifact) : String :=
  "\x7b\n\t\"gasPrice\": " ++ toString a.gasPrice ++
  ",\n\t\"gasLimit\": " ++ toString a.gasLimit ++
  ",\n\t\"signerAddress\": \"" ++ a.signerAddress ++
  "\",\n\t\"transaction\": \"" ++ a.transaction ++
  "\",\n\t\"address\": \"" ++ a.address ++ "\"\n\x7d"

/-- The exact bytes written to the artifact file: the tab-indented JSON plus a
trailing newline (`JSON.stringify(PREDEPLOYMENT_ARTIFACT, null, "\t") + "\n"`). -/
def artifactFileContent : String :=
  stringifyArtifactTabs PREDEPLOYMENT_ARTIFACT ++ "\n"

/-! ## Data model: environment, file system, external world -/

/-- The environment variables the scripts read. -/
structure Env where
  CHAIN_ID : Option String
  RPC : Option String
  SKIP_CHAINLIST_CHECK : Option String
  SUMMARY_FILE : Option String
deriving DecidableEq, Repr

/-- A flat model of the file system: an association list of file paths to
contents, plus the set of existing directories. -/
structure FileSystem where
  files : List (String × String)
  dirs : List String
deriving DecidableEq, Repr

/-- Model of `fs.existsSync`. -/
def FileSystem.existsPath (fs : FileSystem) (p : String) : Bool :=
  fs.files.any (fun f => f.1 == p) || fs.dirs.any (fun d => d == p)

/-- Content of the file at a path, if present. -/
def FileSystem.read (fs : FileSystem) (p : String) : Option String :=
  (fs.files.find? (fun f => f.1 == p)).map Prod.snd

/-- A successful `fs.writeFileSync`: replaces any previous file at the path. -/
def FileSystem.writeFile (fs : FileSystem) (p c : String) : FileSystem :=
  ⟨(p, c) :: fs.files.filter (fun f => f.1 != p), fs.dirs⟩

/-- Model of `fs.mkdirSync(dir, \x7b recursive: true \x7d)`. -/
def FileSystem.mkdir (fs : FileSystem) (d : String) : FileSystem :=
  ⟨fs.files, d :: fs.dirs⟩

/-- One entry of the fetched chainlist (`ChainData` in variant B; variant A
only reads `chainId`). -/
structure ChainData where
  chainId : Int
  rpc : Option (List String)
deriving DecidableEq, Repr

/-- Outcome of the HTTPS fetch of `https://chainlist.org/rpcs.json`. -/
inductive FetchOutcome where
  | ok (chainlist : List ChainData)
  | httpError (status : Nat) (body : String)
deriving DecidableEq, Repr

/-- The answers of a JSON-RPC provider: the self-reported network chain id and
the bytecode string returned by `getCode(ADDRESS)`. -/
structure RpcResponses where
  networkChainId : Int
  code : String
deriving DecidableEq, Repr

/-- The external world an invocation runs against: the environment variables,
the chainlist fetch outcome, the responses of the JSON-RPC provider reachable
at each URL, the `ethers.utils.keccak256` oracle, and the set of paths on
which `fs.writeFileSync` fails with an I/O error. -/
structure World where
  env : Env
  fetchResult : FetchOutcome
  rpc : String → RpcResponses
  keccak : String → String
  writeFails : String → Bool

/-- Abstract model of the message of the error thrown by `fs.writeFileSync`
when the underlying write fails. -/
def fsWriteErrMsg (p : String) : String := "EIO: i/o error, write " ++ p

/-! ## Errors (variant A: `PredeploymentError`) -/

/-- The comment header shared by all error comments in variant A. -/
def errHeader : String := "**⛔️ Error:**<br>"

/-- The class `PredeploymentError`: an error with a short machine-usable `message` (the
cause) and an HTML-flavoured `comment`. -/
structure PredeploymentError where
  message : String
  comment : String
deriving DecidableEq, Repr

namespace PredeploymentError

def chainIdNotProvided : PredeploymentError :=
  ⟨"Chain ID not provided",
   errHeader ++ "Chain ID not provided. Please set the CHAIN_ID environment variable."⟩

def invalidChainId (value : String) : PredeploymentError :=
  ⟨"Invalid chain ID",
   errHeader ++ "Invalid chain ID: \"" ++ value ++ "\". Chain ID must be a positive integer."⟩

def artifactAlreadyExists (chainId : Int) : PredeploymentError :=
  ⟨"Artifact already exists",
   errHeader ++ "Artifact already exists for chain ID " ++ toString chainId ++ "."⟩

def chainNotListed (chainId : Int) : PredeploymentError :=
  ⟨"Chain not listed",
   errHeader ++ "Chain " ++ toString chainId ++ " is not listed in the chainlist.<br>" ++
   "For more information on how to add a chain, please refer to the [chainlist documentation](https://github.com/DefiLlama/chainlist?tab=readme-ov-file#add-a-chain).<br>" ++
   "Set SKIP_CHAINLIST_CHECK=true to bypass this check."⟩

def chainIdMismatch (expected actual : Int) : PredeploymentError :=
  ⟨"Chain ID mismatch",
   errHeader ++ "Chain ID mismatch. Expected " ++ toString expected ++
   ", but RPC returned " ++ toString actual ++ "."⟩

def factoryNotDeployed : PredeploymentError :=
  ⟨"Factory not deployed",
   errHeader ++ "The Safe Singleton Factory is not deployed at " ++ ADDRESS ++
   ".<br>This chain may not have the factory pre-installed."⟩

def factoryDifferentBytecode : PredeploymentError :=
  ⟨"Factory different bytecode",
   errHeader ++ "The contract at " ++ ADDRESS ++
   " has different bytecode than expected.<br>This may not be the Safe Singleton Factory."⟩

end PredeploymentError

/-- An error flowing through variant A: either a `PredeploymentError` or a
plain `Error` identified by its message (thrown by `fetchChainlist` and by the
file-system model). -/
inductive ErrA where
  | predeployment (e : PredeploymentError)
  | plain (message : String)
deriving DecidableEq, Repr

/-- Message of the plain error thrown by `fetchChainlist` on a non-2xx status. -/
def httpErrMsg (status : Nat) : String :=
  "HTTP " ++ toString status ++ " error retrieving chain list."

/-- The `console.log(\x7b status, body \x7d)` line printed by `fetchChainlist`
before throwing. -/
def chainlistFetchLog (status : Nat) (body : String) : String :=
  "\x7b status: " ++ toString status ++ ", body: " ++ body ++ " \x7d"

/-! ## Chain identifier validation (both variants, lines 60-69 / 56-69) -/

/-- Result of the chain-identifier validation step. -/
inductive ChainIdCheck where
  | notProvided
  | invalid (value : String)
  | ok (chainId : Int)
deriving DecidableEq, Repr

/-- Lines 60-69 of variant A (56-69 of variant B): `if (!chainIdStr)` reports
"not provided"; otherwise `parseInt(chainIdStr, 10)` must yield a value that is
neither `NaN` nor `≤ 0`, else the identifier is "invalid". -/
def validateChainId : Option String → ChainIdCheck
  | none => ChainIdCheck.notProvided
  | some s =>
    if s == "" then ChainIdCheck.notProvided
    else
      match jsParseInt10 s with
      | none => ChainIdCheck.invalid s
      | some n => if n ≤ 0 then ChainIdCheck.invalid s else ChainIdCheck.ok n

/-- Model of `path.join(__dirname, "..", "artifacts", chainId)`, with the constant
script-directory prefix normalised away. -/
def artifactDirOf (chainId : Int) : String := "artifacts/" ++ toString chainId

/-- Model of `path.join(artifactDir, "deployment.json")`. -/
def artifactPathOf (chainId : Int) : String := artifactDirOf chainId ++ "/deployment.json"

/-! ## Variant A pipeline (`src/scripts/add-predeployment.ts`) -/

/-- The function `verifyPredeployment` (variant A, lines 113-135): compare the provider's
self-reported chain id, reject empty bytecode at `ADDRESS`, compare the
Keccak-256 hash of the bytecode with `CODEHASH`.  Returns the console log
produced and the error thrown, if any. -/
def verifyPredeploymentA (w : World) (rpcUrl : String) (expectedChainId : Int) :
    List String × Option PredeploymentError :=
  let resp := w.rpc rpcUrl
  if resp.networkChainId ≠ expectedChainId then
    ([], some (PredeploymentError.chainIdMismatch expectedChainId resp.networkChainId))
  else if hexDataLength resp.code = some 0 then
    ([], some PredeploymentError.factoryNotDeployed)
  else if w.keccak resp.code ≠ CODEHASH then
    ([], some PredeploymentError.factoryDifferentBytecode)
  else
    (["Factory verified at " ++ ADDRESS ++ " on chain " ++ toString resp.networkChainId], none)

/-- The warning printed when no RPC URL is available (variant A, lines 83-87). -/
def noRpcWarning : String :=
  "Warning: No RPC URL provided. Skipping on-chain verification."

/-- Lines 81-88 of variant A: run on-chain verification when `process.env.RPC`
is truthy, otherwise log a warning and continue. -/
def rpcStepA (w : World) (chainId : Int) : List String × Option PredeploymentError :=
  match w.env.RPC with
  | some rpcUrl =>
    if rpcUrl == "" then ([noRpcWarning], none)
    else verifyPredeploymentA w rpcUrl chainId
  | none => ([noRpcWarning], none)

/-- Lines 89-98 of variant A: unless `SKIP_CHAINLIST_CHECK === "true"`, fetch
the chainlist (propagating its plain HTTP error) and require some entry with
the target chain id. -/
def chainlistStepA (w : World) (chainId : Int) : List String × Option ErrA :=
  if w.env.SKIP_CHAINLIST_CHECK == some "true" then ([], none)
  else
    match w.fetchResult with
    | FetchOutcome.httpError status body =>
      ([chainlistFetchLog status body], some (ErrA.plain (httpErrMsg status)))
    | FetchOutcome.ok chainlist =>
      if chainlist.any (fun item => item.chainId == chainId) then
        (["Chain " ++ toString chainId ++ " found in chainlist."], none)
      else
        ([], some (ErrA.predeployment (PredeploymentError.chainNotListed chainId)))

/-- Lines 100-111 of variant A: create the artifact directory when missing and
write the artifact file; a failing write surfaces as a plain error. -/
def writeStepA (w : World) (fs : FileSystem) (chainId : Int) :
    FileSystem × List String × Option ErrA :=
  let fs1 := if fs.existsPath (artifactDirOf chainId) then fs
             else fs.mkdir (artifactDirOf chainId)
  if w.writeFails (artifactPathOf chainId) then
    (fs1, [], some (ErrA.plain (fsWriteErrMsg (artifactPathOf chainId))))
  else
    (fs1.writeFile (artifactPathOf chainId) artifactFileContent,
     ["Pre-deployment artifact created at: " ++ artifactPathOf chainId], none)

/-- Outcome of one run of `verifyAndAddPredeployment`: the file system after
the run, the console log, and the error thrown (if any). -/
structure PipeOut where
  fs : FileSystem
  log : List String
  err : Option ErrA
deriving DecidableEq, Repr

/-- The function `verifyAndAddPredeployment` (variant A, lines 59-111): validate the chain
id, reject an existing artifact, optionally verify on-chain, optionally check
the chainlist, then create the artifact file. -/
def verifyAndAddPredeploymentA (w : World) (fs : FileSystem) : PipeOut :=
  match validateChainId w.env.CHAIN_ID with
  | ChainIdCheck.notProvided =>
    ⟨fs, [], some (ErrA.predeployment PredeploymentError.chainIdNotProvided)⟩
  | ChainIdCheck.invalid s =>
    ⟨fs, [], some (ErrA.predeployment (PredeploymentError.invalidChainId s))⟩
  | ChainIdCheck.ok chainId =>
    if fs.existsPath (artifactPathOf chainId) then
      ⟨fs, [], some (ErrA.predeployment (PredeploymentError.artifactAlreadyExists chainId))⟩
    else
      match rpcStepA w chainId with
      | (log1, some e) => ⟨fs, log1, some (ErrA.predeployment e)⟩
      | (log1, none) =>
        match chainlistStepA w chainId with
        | (log2, some e) => ⟨fs, log1 ++ log2, some e⟩
        | (log2, none) =>
          match writeStepA w fs chainId with
          | (fs1, log3, err) => ⟨fs1, log1 ++ log2 ++ log3, err⟩

/-! ## Variant A orchestrator (`addPredeployment`, lines 22-57) -/

/-- The run summary of variant A. -/
structure SummaryA where
  commentOutput : String
  success : Bool
deriving DecidableEq, Repr

/-- The success comment (lines 31-37): interpolates the raw `CHAIN_ID`
environment string (`undefined` when absent, as JavaScript renders it). -/
def successCommentA (env : Env) : String :=
  "**✅ Success:**<br>Pre-deployment artifact added for chain ID " ++
  env.CHAIN_ID.getD "undefined" ++
  ".<br>The Safe Singleton Factory is pre-installed on this network."

/-- The comment built in the `catch` branch for an error that is not a
`PredeploymentError` (lines 39-45); a JavaScript `Error` interpolates as
`Error: message`. -/
def unexpectedComment (message : String) : String :=
  errHeader ++ "Unexpected error adding pre-deployment.<br>Error Details: Error: " ++ message

/-- Rendering of `console.log(summary)` on the summary object. -/
def printSummaryA (s : SummaryA) : String :=
  "\x7b commentOutput: " ++ s.commentOutput ++ ", success: " ++
  (if s.success then "true" else "false") ++ " \x7d"

/-- Minimal JSON string escaping used by `JSON.stringify` on the summary. -/
def jsonEscapeChar (c : Char) : String :=
  if c.toNat == 34 then "\\\""
  else if c.toNat == 92 then "\\\\"
  else if c.toNat == 10 then "\\n"
  else String.singleton c

/-- Escape a string for embedding in JSON. -/
def jsonEscape (s : String) : String := String.join (s.data.map jsonEscapeChar)

/-- Model of `JSON.stringify(summary, null, 2)`. -/
def stringifySummaryA (s : SummaryA) : String :=
  "\x7b\n  \"commentOutput\": \"" ++ jsonEscape s.commentOutput ++
  "\",\n  \"success\": " ++ (if s.success then "true" else "false") ++ "\n\x7d"

/-- Result of one invocation of `addPredeployment` (variant A): the final file
system, the console log, the summary, the exit code set by the script itself
(`none` when the line `process.exitCode = 1` was not executed), the summary
file written (path and content), and the error that escaped the function
uncaught, if any. -/
structure RunResultA where
  fs : FileSystem
  log : List String
  summary : SummaryA
  exitCodeSet : Option Nat
  summaryOut : Option (String × String)
  escaped : Option String
deriving DecidableEq, Repr

/-- The orchestrator `addPredeployment` (variant A, lines 22-57): run the pipeline inside
`try`, build the summary in `catch`, then in `finally` print the summary,
optionally write it to `SUMMARY_FILE`, and set the failure exit code.  A
failing summary-file write throws inside `finally`, so it skips the
exit-code assignment and escapes the function. -/
def addPredeploymentA (w : World) (fs : FileSystem) : RunResultA :=
  let p := verifyAndAddPredeploymentA w fs
  let summary : SummaryA :=
    match p.err with
    | none => ⟨successCommentA w.env, true⟩
    | some (ErrA.predeployment e) => ⟨e.comment, false⟩
    | some (ErrA.plain m) => ⟨unexpectedComment m, false⟩
  let log := p.log ++ [printSummaryA summary]
  match w.env.SUMMARY_FILE with
  | some sf =>
    if sf == "" then
      ⟨p.fs, log, summary, (if summary.success then none else some 1), none, none⟩
    else if w.writeFails sf then
      ⟨p.fs, log, summary, none, none, some (fsWriteErrMsg sf)⟩
    else
      ⟨p.fs, log, summary, (if summary.success then none else some 1),
       some (sf, stringifySummaryA summary), none⟩
  | none =>
    ⟨p.fs, log, summary, (if summary.success then none else some 1), none, none⟩

/-- Modelled from the spec: `runScript` from `./utils` (not in `src/`) wraps
`addPredeployment`; per the spec the process exit status is "zero on success,
non-zero on any failure", so an error escaping the orchestrator also ends the
process with a non-zero status, while a clean return leaves the exit code the
script set (default `0`). -/
def runScriptExitCode (r : RunResultA) : Nat :=
  match r.escaped with
  | some _ => 1
  | none => r.exitCodeSet.getD 0

/-! ## Variant B pipeline (`src/unnamed/part_000`) -/

/-- The function `verifyPredeployment` (variant B, lines 113-141): the same three checks as
variant A, with plain error messages. -/
def verifyPredeploymentB (w : World) (rpcUrl : String) (expectedChainId : Int) :
    List String × Option String :=
  let resp := w.rpc rpcUrl
  if resp.networkChainId ≠ expectedChainId then
    ([], some ("Chain ID mismatch. Expected " ++ toString expectedChainId ++
               ", but RPC returned " ++ toString resp.networkChainId ++ "."))
  else if hexDataLength resp.code = some 0 then
    ([], some ("The Safe Singleton Factory is not deployed at " ++ ADDRESS ++
               ". This chain may not have the factory pre-installed."))
  else if w.keccak resp.code ≠ CODEHASH then
    ([], some ("The contract at " ++ ADDRESS ++
               " has different bytecode than expected. This may not be the Safe Singleton Factory."))
  else
    (["Factory verified at " ++ ADDRESS ++ " on chain " ++ toString resp.networkChainId], none)

/-- The function `getRpcFromChainData` (variant B, lines 162-175): `null` when the `rpc`
list is absent or empty, otherwise the first entry starting with `http://` or
`https://`, or `null` when none qualifies. -/
def getRpcFromChainData (chainData : ChainData) : Option String :=
  match chainData.rpc with
  | none => none
  | some rpcs =>
    if rpcs.isEmpty then none
    else rpcs.find? (fun rpc => jsStartsWith rpc "http://" || jsStartsWith rpc "https://")

/-- Plain error messages of variant B (lines 59-85). -/
def msgNotProvidedB : String :=
  "Chain ID not provided. Please set the CHAIN_ID environment variable."

/-- Variant B invalid-chain-id message. -/
def msgInvalidB (value : String) : String :=
  "Invalid chain ID: \"" ++ value ++ "\". Chain ID must be a positive integer."

/-- Variant B duplicate-artifact message. -/
def msgDupB (chainId : Int) : String :=
  "Artifact already exists for chain ID " ++ toString chainId ++ "."

/-- Variant B not-listed message. -/
def msgNotListedB (chainId : Int) : String :=
  "Chain " ++ toString chainId ++ " is not listed in the chainlist. " ++
  "For more information on how to add a chain, please refer to the chainlist documentation: " ++
  "https://github.com/DefiLlama/chainlist?tab=readme-ov-file#add-a-chain"

/-- Outcome of one run of variant B's `verifyAndAddPredeployment`: final file
system, console log, error message thrown (if any). -/
structure PipeOutB where
  fs : FileSystem
  log : List String
  err : Option String
deriving DecidableEq, Repr

/-- Variant B write step (lines 100-111), identical to variant A's but with
plain error messages. -/
def writeStepB (w : World) (fs : FileSystem) (chainId : Int) :
    FileSystem × List String × Option String :=
  let fs1 := if fs.existsPath (artifactDirOf chainId) then fs
             else fs.mkdir (artifactDirOf chainId)
  if w.writeFails (artifactPathOf chainId) then
    (fs1, [], some (fsWriteErrMsg (artifactPathOf chainId)))
  else
    (fs1.writeFile (artifactPathOf chainId) artifactFileContent,
     ["Pre-deployment artifact created at: " ++ artifactPathOf chainId], none)

/-- The function `verifyAndAddPredeployment` (variant B, lines 55-111): validate the chain
id, reject an existing artifact, fetch the chainlist (mandatory), find the
first matching entry, derive an RPC URL from it for optional on-chain
verification, then create the artifact file. -/
def verifyAndAddPredeploymentB (w : World) (fs : FileSystem) : PipeOutB :=
  match validateChainId w.env.CHAIN_ID with
  | ChainIdCheck.notProvided => ⟨fs, [], some msgNotProvidedB⟩
  | ChainIdCheck.invalid s => ⟨fs, [], some (msgInvalidB s)⟩
  | ChainIdCheck.ok chainId =>
    if fs.existsPath (artifactPathOf chainId) then
      ⟨fs, [], some (msgDupB chainId)⟩
    else
      match w.fetchResult with
      | FetchOutcome.httpError status body =>
        ⟨fs, [chainlistFetchLog status body], some (httpErrMsg status)⟩
      | FetchOutcome.ok chainlist =>
        match chainlist.find? (fun item => item.chainId == chainId) with
        | none => ⟨fs, [], some (msgNotListedB chainId)⟩
        | some chainData =>
          let log0 := ["Chain " ++ toString chainId ++ " found in chainlist."]
          match getRpcFromChainData chainData with
          | some rpcUrl =>
            match verifyPredeploymentB w rpcUrl chainId with
            | (logv, some e) =>
              ⟨fs, log0 ++ ["Using RPC URL from chainlist: " ++ rpcUrl] ++ logv, some e⟩
            | (logv, none) =>
              match writeStepB w fs chainId with
              | (fs1, log3, err) =>
                ⟨fs1, log0 ++ ["Using RPC URL from chainlist: " ++ rpcUrl] ++ logv ++ log3, err⟩
          | none =>
            match writeStepB w fs chainId with
            | (fs1, log3, err) =>
              ⟨fs1,
               log0 ++ ["Warning: No RPC URL found in chainlist for chain " ++ toString chainId ++
                        ". Skipping on-chain verification."] ++ log3,
               err⟩

/-! ## The enabled validation steps of variant A, as separate predicates

These restate the conditions tested by the individual pipeline steps, used to
express "every enabled validation step succeeds" as one predicate. -/

/-- The three on-chain checks of `verifyPredeployment` all pass. -/
def rpcChecksPass (w : World) (rpcUrl : String) (chainId : Int) : Bool :=
  let resp := w.rpc rpcUrl
  resp.networkChainId == chainId &&
  !(hexDataLength resp.code == some 0) &&
  w.keccak resp.code == CODEHASH

/-- The RPC verification step of variant A succeeds: either no endpoint is
configured (the step is skipped) or the three on-chain checks pass. -/
def rpcStepPasses (w : World) (chainId : Int) : Bool :=
  match w.env.RPC with
  | some u => if u == "" then true else rpcChecksPass w u chainId
  | none => true

/-- The chainlist step of variant A succeeds: either it is skipped via
`SKIP_CHAINLIST_CHECK=true`, or the fetch succeeds and some entry carries the
target chain id. -/
def chainlistPasses (w : World) (chainId : Int) : Bool :=
  if w.env.SKIP_CHAINLIST_CHECK == some "true" then true
  else
    match w.fetchResult with
    | FetchOutcome.ok l => l.any (fun item => item.chainId == chainId)
    | FetchOutcome.httpError _ _ => false

/-- Every enabled validation step of variant A succeeds: the chain id is
valid, no artifact exists yet, the (enabled) RPC verification passes, and the
(enabled) chainlist check passes. -/
def validationsPassA (w : World) (fs : FileSystem) : Bool :=
  match validateChainId w.env.CHAIN_ID with
  | ChainIdCheck.ok chainId =>
    !fs.existsPath (artifactPathOf chainId) &&
    rpcStepPasses w chainId &&
    chainlistPasses w chainId
  | _ => false

/-! ## Helper lemmas -/

theorem filter_ne_of_any_eq_false (files : List (String × String)) (p : String)
    (h : files.any (fun f => f.1 == p) = false) :
    files.filter (fun f => f.1 != p) = files := by
  induction files with
  | nil => rfl
  | cons f fs ih =>
    simp only [List.any_cons, Bool.or_eq_false_iff] at h
    simp only [List.filter_cons, bne, h.1, Bool.not_false, if_true]
    exact congrArg (List.cons f) (ih h.2)

theorem existsPath_writeFile (fs : FileSystem) (p c : String) :
    (fs.writeFile p c).existsPath p = true := by
  simp [FileSystem.writeFile, FileSystem.existsPath]

theorem mkdirIf_files (fs : FileSystem) (b : Bool) (d : String) :
    (if b = true then fs else fs.mkdir d).files = fs.files := by
  cases b <;> simp [FileSystem.mkdir]

theorem verifyPredeploymentA_snd_none_iff (w : World) (u : String) (chainId : Int) :
    (verifyPredeploymentA w u chainId).2 = none ↔ rpcChecksPass w u chainId = true := by
  unfold verifyPredeploymentA rpcChecksPass
  by_cases h1 : (w.rpc u).networkChainId = chainId
  · by_cases h2 : hexDataLength (w.rpc u).code = some 0
    · simp [h1, h2]
    · by_cases h3 : w.keccak (w.rpc u).code = CODEHASH <;> simp [h1, h2, h3]
  · simp [h1]

theorem rpcStepA_snd_none_iff (w : World) (chainId : Int) :
    (rpcStepA w chainId).2 = none ↔ rpcStepPasses w chainId = true := by
  unfold rpcStepA rpcStepPasses
  cases hR : w.env.RPC with
  | none => simp
  | some u =>
    by_cases hu : u == ""
    · simp [hu]
    · simp only [hu, if_false]
      exact verifyPredeploymentA_snd_none_iff w u chainId

theorem chainlistStepA_snd_none_iff (w : World) (chainId : Int) :
    (chainlistStepA w chainId).2 = none ↔ chainlistPasses w chainId = true := by
  unfold chainlistStepA chainlistPasses
  by_cases hskip : w.env.SKIP_CHAINLIST_CHECK == some "true"
  · simp [hskip]
  · cases hf : w.fetchResult with
    | ok l =>
      by_cases hm : l.any (fun item => item.chainId == chainId) = true <;>
        simp [hskip, hm]
    | httpError status body => simp [hskip]

theorem writeStepA_ok (w : World) (fs : FileSystem) (chainId : Int)
    (hsafe : w.writeFails (artifactPathOf chainId) = false)
    (hnew : fs.existsPath (artifactPathOf chainId) = false) :
    (writeStepA w fs chainId).2.2 = none ∧
    (writeStepA w fs chainId).1.files =
      (artifactPathOf chainId, artifactFileContent) :: fs.files := by
  have hany : fs.files.any (fun f => f.1 == artifactPathOf chainId) = false := by
    unfold FileSystem.existsPath at hnew
    exact (Bool.or_eq_false_iff.mp hnew).1
  unfold writeStepA
  simp only [hsafe, Bool.false_eq_true, if_false]
  refine ⟨by simp, ?_⟩
  simp only [FileSystem.writeFile]
  have hfiles : (if fs.existsPath (artifactDirOf chainId) = true then fs
      else fs.mkdir (artifactDirOf chainId)).files = fs.files :=
    mkdirIf_files fs _ _
  rw [hfiles, filter_ne_of_any_eq_false _ _ hany]

/-! ## Spec-side reading of the chain-identifier validity (for claim C2)

The spec reads "parses as a base-10 integer": the whole string is an optional
sign followed by one or more decimal digits.  This definition follows the
spec's words and is compared against the code's validator. -/

/-- Integer value of a string that is entirely an optional sign followed by
one or more decimal digits; `none` otherwise.  Formalises the spec's "parses
as a base-10 integer". -/
def specBase10IntValue (s : String) : Option Int :=
  let signRest : Int × List Char :=
    match s.data with
    | '-' :: t => (-1, t)
    | '+' :: t => (1, t)
    | cs => (1, cs)
  if signRest.2.isEmpty || !signRest.2.all Char.isDigit then none
  else some (signRest.1 * (digitsToNat signRest.2 : Int))

/-- The spec's acceptance condition for the chain-identifier input: present,
parses as a base-10 integer, and the value is strictly positive. -/
def specChainIdAccepted : Option String → Bool
  | none => false
  | some s =>
    match specBase10IntValue s with
    | some v => decide (0 < v)
    | none => false

/-- A URL beginning with an HTTP or HTTPS scheme (claim C7's qualifier). -/
def isHttpUrl (u : String) : Bool :=
  jsStartsWith u "http://" || jsStartsWith u "https://"

/-- The summary-file write, if one is configured, does not fail. -/
def summaryWriteSafe (w : World) : Prop :=
  ∀ p, w.env.SUMMARY_FILE = some p → p ≠ "" → w.writeFails p = false

/-! ## More helper lemmas -/

theorem string_data_append (a b : String) : (a ++ b).data = a.data ++ b.data := by
  cases a
  cases b
  rfl

theorem isPrefixOf_append_self (v t : List Char) : v.isPrefixOf (v ++ t) = true := by
  induction v with
  | nil => cases t <;> rfl
  | cons c cs ih => simp [List.isPrefixOf, ih]

theorem any_tails_self (p : List Char → Bool) (s : List Char) (h : p s = true) :
    s.tails.any p = true := by
  cases s <;> simp [List.tails, h]

theorem any_tails_append (p : List Char → Bool) (u s : List Char)
    (h : s.tails.any p = true) : (u ++ s).tails.any p = true := by
  induction u with
  | nil => simpa using h
  | cons c cs ih => simpa [List.tails] using Or.inr ih

theorem strContains_of_data_eq (s t : String) (x y : List Char)
    (h : s.data = x ++ (t.data ++ y)) : strContains s t = true := by
  unfold strContains
  rw [h]
  exact any_tails_append _ x _
    (any_tails_self _ _ (isPrefixOf_append_self t.data y))

theorem find?_first {α : Type} (p : α → Bool) (l : List α) (a : α)
    (h : l.find? p = some a) :
    p a = true ∧ ∃ i : Nat, l[i]? = some a ∧
      ∀ j : Nat, j < i → ∀ b, l[j]? = some b → p b = false := by
  induction l with
  | nil => simp [List.find?] at h
  | cons x xs ih =>
    by_cases hx : p x = true
    · rw [List.find?_cons_of_pos _ hx] at h
      obtain rfl : x = a := by simpa using h
      exact ⟨hx, 0, by simp, fun j hj => absurd hj (Nat.not_lt_zero j)⟩
    · have hx' : p x = false := by simpa using hx
      rw [List.find?_cons_of_neg _ hx] at h
      obtain ⟨hp, i, hi, hfirst⟩ := ih h
      refine ⟨hp, i + 1, by simpa using hi, ?_⟩
      intro j hj b hb
      cases j with
      | zero =>
        have hbx : x = b := by simpa using hb
        rw [← hbx]
        exact hx'
      | succ k =>
        exact hfirst k (Nat.lt_of_succ_lt_succ hj) b (by simpa using hb)

theorem existsPath_of_head (fs : FileSystem) (p c : String)
    (rest : List (String × String)) (h : fs.files = (p, c) :: rest) :
    fs.existsPath p = true := by
  unfold FileSystem.existsPath
  rw [h]
  simp

theorem writeStepB_ok (w : World) (fs : FileSystem) (chainId : Int)
    (hsafe : w.writeFails (artifactPathOf chainId) = false)
    (hnew : fs.existsPath (artifactPathOf chainId) = false) :
    (writeStepB w fs chainId).2.2 = none ∧
    (writeStepB w fs chainId).1.files =
      (artifactPathOf chainId, artifactFileContent) :: fs.files := by
  have hany : fs.files.any (fun f => f.1 == artifactPathOf chainId) = false := by
    unfold FileSystem.existsPath at hnew
    exact (Bool.or_eq_false_iff.mp hnew).1
  unfold writeStepB
  simp only [hsafe, Bool.false_eq_true, if_false]
  refine ⟨by simp, ?_⟩
  simp only [FileSystem.writeFile]
  have hfiles : (if fs.existsPath (artifactDirOf chainId) = true then fs
      else fs.mkdir (artifactDirOf chainId)).files = fs.files :=
    mkdirIf_files fs _ _
  rw [hfiles, filter_ne_of_any_eq_false _ _ hany]

/-! ## Pipeline-level helper lemmas (variant A) -/

theorem pipeA_err_none_iff (w : World) (fs : FileSystem)
    (hsafe : ∀ p, w.writeFails p = false) :
    (verifyAndAddPredeploymentA w fs).err = none ↔ validationsPassA w fs = true := by
  rcases hv : validateChainId w.env.CHAIN_ID with _ | s | cid
  · simp [verifyAndAddPredeploymentA, validationsPassA, hv]
  · simp [verifyAndAddPredeploymentA, validationsPassA, hv]
  · by_cases hd : fs.existsPath (artifactPathOf cid) = true
    · simp [verifyAndAddPredeploymentA, validationsPassA, hv, hd]
    · have hd' : fs.existsPath (artifactPathOf cid) = false := by simpa using hd
      rcases hrp : rpcStepA w cid with ⟨log1, oe⟩
      rcases oe with _ | e
      · have hr : rpcStepPasses w cid = true := by
          have h2 := rpcStepA_snd_none_iff w cid
          rw [hrp] at h2
          simpa using h2
        rcases hcl : chainlistStepA w cid with ⟨log2, oe2⟩
        rcases oe2 with _ | e2
        · have hc : chainlistPasses w cid = true := by
            have h2 := chainlistStepA_snd_none_iff w cid
            rw [hcl] at h2
            simpa using h2
          rcases hwr : writeStepA w fs cid with ⟨fs1, log3, err3⟩
          have hok := writeStepA_ok w fs cid (hsafe _) hd'
          rw [hwr] at hok
          obtain ⟨hok1, hok2⟩ := hok
          simp only [] at hok1 hok2
          simp [verifyAndAddPredeploymentA, validationsPassA, hv, hd', hrp, hcl, hwr,
                hr, hc, hok1]
        · have hc : chainlistPasses w cid = false := by
            have h2 := chainlistStepA_snd_none_iff w cid
            rw [hcl] at h2
            simpa using h2
          simp [verifyAndAddPredeploymentA, validationsPassA, hv, hd', hrp, hcl, hr, hc]
      · have hr : rpcStepPasses w cid = false := by
          have h2 := rpcStepA_snd_none_iff w cid
          rw [hrp] at h2
          simpa using h2
        simp [verifyAndAddPredeploymentA, validationsPassA, hv, hd', hrp, hr]

theorem pipeA_fail_fs (w : World) (fs : FileSystem)
    (hsafe : ∀ p, w.writeFails p = false) :
    ∀ e, (verifyAndAddPredeploymentA w fs).err = some e →
      (verifyAndAddPredeploymentA w fs).fs = fs := by
  intro e he
  rcases hv : validateChainId w.env.CHAIN_ID with _ | s | cid
  · simp [verifyAndAddPredeploymentA, hv]
  · simp [verifyAndAddPredeploymentA, hv]
  · by_cases hd : fs.existsPath (artifactPathOf cid) = true
    · simp [verifyAndAddPredeploymentA, hv, hd]
    · have hd' : fs.existsPath (artifactPathOf cid) = false := by simpa using hd
      rcases hrp : rpcStepA w cid with ⟨log1, oe⟩
      rcases oe with _ | e1
      · rcases hcl : chainlistStepA w cid with ⟨log2, oe2⟩
        rcases oe2 with _ | e2
        · rcases hwr : writeStepA w fs cid with ⟨fs1, log3, err3⟩
          have hok := writeStepA_ok w fs cid (hsafe _) hd'
          rw [hwr] at hok
          obtain ⟨hok1, hok2⟩ := hok
          simp only [] at hok1
          rw [verifyAndAddPredeploymentA] at he
          simp only [hv, hd', hrp, hcl, hwr, hok1] at he
          simp at he
        · simp [verifyAndAddPredeploymentA, hv, hd', hrp, hcl]
      · simp [verifyAndAddPredeploymentA, hv, hd', hrp]

theorem pipeA_success (w : World) (fs : FileSystem) (cid : Int)
    (hv : validateChainId w.env.CHAIN_ID = ChainIdCheck.ok cid)
    (hd : fs.existsPath (artifactPathOf cid) = false)
    (hr : rpcStepPasses w cid = true)
    (hc : chainlistPasses w cid = true)
    (hsafe : w.writeFails (artifactPathOf cid) = false) :
    (verifyAndAddPredeploymentA w fs).err = none ∧
    (verifyAndAddPredeploymentA w fs).fs.files =
      (artifactPathOf cid, artifactFileContent) :: fs.files := by
  have hrp2 : (rpcStepA w cid).2 = none := (rpcStepA_snd_none_iff w cid).mpr hr
  have hcl2 : (chainlistStepA w cid).2 = none := (chainlistStepA_snd_none_iff w cid).mpr hc
  rcases hrp : rpcStepA w cid with ⟨log1, oe⟩
  rw [hrp] at hrp2
  cases hrp2
  rcases hcl : chainlistStepA w cid with ⟨log2, oe2⟩
  rw [hcl] at hcl2
  cases hcl2
  rcases hwr : writeStepA w fs cid with ⟨fs1, log3, err3⟩
  have hok := writeStepA_ok w fs cid hsafe hd
  rw [hwr] at hok
  obtain ⟨hok1, hok2⟩ := hok
  simp only [] at hok1 hok2
  simp [verifyAndAddPredeploymentA, hv, hd, hrp, hcl, hwr, hok1, hok2]

theorem runA_fields (w : World) (fs : FileSystem) :
    (addPredeploymentA w fs).fs = (verifyAndAddPredeploymentA w fs).fs ∧
    ((addPredeploymentA w fs).summary.success = true ↔
      (verifyAndAddPredeploymentA w fs).err = none) ∧
    (∀ m, (verifyAndAddPredeploymentA w fs).err = some (ErrA.plain m) →
      (addPredeploymentA w fs).summary.commentOutput = unexpectedComment m) ∧
    (addPredeploymentA w fs).log =
      (verifyAndAddPredeploymentA w fs).log ++
        [printSummaryA (addPredeploymentA w fs).summary] := by
  have main : ∀ (he : Option ErrA), (verifyAndAddPredeploymentA w fs).err = he →
      (addPredeploymentA w fs).fs = (verifyAndAddPredeploymentA w fs).fs ∧
      (addPredeploymentA w fs).summary =
        (match he with
         | none => (⟨successCommentA w.env, true⟩ : SummaryA)
         | some (ErrA.predeployment e) => ⟨e.comment, false⟩
         | some (ErrA.plain m) => ⟨unexpectedComment m, false⟩) ∧
      (addPredeploymentA w fs).log =
        (verifyAndAddPredeploymentA w fs).log ++
          [printSummaryA (addPredeploymentA w fs).summary] := by
    intro he h
    unfold addPredeploymentA
    rcases hsf : w.env.SUMMARY_FILE with _ | sf
    · simp [h, hsf]
    · by_cases hemp : sf == ""
      · simp [h, hsf, hemp]
      · by_cases hwf : w.writeFails sf = true
        · simp [h, hsf, hemp, hwf]
        · simp [h, hsf, hemp, hwf]
  obtain ⟨h1, h2, h3⟩ := main (verifyAndAddPredeploymentA w fs).err rfl
  refine ⟨h1, ?_, ?_, h3⟩
  · rcases he : (verifyAndAddPredeploymentA w fs).err with _ | e
    · rw [he] at h2
      simp [h2]
    · rw [he] at h2
      rcases e with e | m <;> simp [h2]
  · intro m hm
    rw [hm] at h2
    simp [h2]

/-! ## Concrete sample data for witnesses and counterexamples -/

/-- The empty starting file system. -/
def emptyFs : FileSystem := ⟨[], []⟩

/-- A world in which every validation passes for chain id 7: valid identifier,
no RPC endpoint configured, chainlist check skipped, no write faults. -/
def worldOk : World :=
  ⟨⟨some "7", none, some "true", some "summary.json"⟩,
   FetchOutcome.ok [⟨7, none⟩],
   fun _ => ⟨7, "0x6001"⟩, fun _ => CODEHASH, fun _ => false⟩

/-- A world whose RPC endpoint reports chain id 6 instead of the expected 5. -/
def worldMismatch : World :=
  ⟨⟨some "5", some "u", some "true", none⟩,
   FetchOutcome.ok [],
   fun _ => ⟨6, "0x6001"⟩, fun _ => CODEHASH, fun _ => false⟩

/-! ## Claim C2 -/

/-- C2, counterexample.  The claim says the validator accepts an input iff it
parses as a base-10 integer with strictly positive value, and that every
non-numeric string is rejected with an "invalid" cause.  On the code,
`"5abc"` is not a base-10 integer numeral (the spec reading rejects it), yet
the validator accepts it with value 5, because JavaScript `parseInt` reads
the maximal digit prefix and ignores trailing garbage.  Also, the present but
empty string is reported with the "not provided" cause, not "invalid". -/
theorem claim2_counterexample :
    validateChainId (some "5abc") = ChainIdCheck.ok 5 ∧
    specChainIdAccepted (some "5abc") = false ∧
    validateChainId (some "") = ChainIdCheck.notProvided ∧
    specChainIdAccepted (some "") = false := by decide

/-- C2 (amended): the chain-identifier input is accepted iff it is present as
a non-empty string and JavaScript `parseInt(s, 10)` (optional sign, maximal
digit prefix, trailing garbage ignored) yields a strictly positive value;
absent or empty input is rejected with the "not provided" cause, every other
rejected input with the "invalid" cause; and when the validator rejects, the
pipeline (either variant) leaves the file system unchanged, so no artifact is
written. -/
theorem claim2_amended_validator (o : Option String) :
    (validateChainId o = ChainIdCheck.notProvided ↔ (o = none ∨ o = some "")) ∧
    (∀ n : Int, validateChainId o = ChainIdCheck.ok n ↔
      ∃ s, o = some s ∧ s ≠ "" ∧ jsParseInt10 s = some n ∧ 0 < n) ∧
    (∀ s, validateChainId o = ChainIdCheck.invalid s ↔
      (o = some s ∧ s ≠ "" ∧
        (jsParseInt10 s = none ∨ ∃ v : Int, jsParseInt10 s = some v ∧ v ≤ 0))) ∧
    (∀ (w : World) (fs : FileSystem), w.env.CHAIN_ID = o →
      (∀ n : Int, validateChainId o ≠ ChainIdCheck.ok n) →
      (verifyAndAddPredeploymentA w fs).fs = fs ∧
      (verifyAndAddPredeploymentB w fs).fs = fs) := by
  refine ⟨?_, ?_, ?_, ?_⟩
  · rcases o with _ | s
    · simp [validateChainId]
    · by_cases hs : (s == "") = true
      · have hse : s = "" := by simpa using hs
        subst hse
        simp [validateChainId]
      · have hne : ¬(s = "") := by simpa using hs
        rcases hp : jsParseInt10 s with _ | n
        · simp [validateChainId, hs, hp, hne]
        · by_cases hn : n ≤ 0 <;> simp [validateChainId, hs, hp, hn, hne]
  · intro n
    rcases o with _ | s
    · simp [validateChainId]
    · by_cases hs : (s == "") = true
      · have hse : s = "" := by simpa using hs
        subst hse
        simp [validateChainId]
      · have hne : ¬(s = "") := by simpa using hs
        rcases hp : jsParseInt10 s with _ | m
        · simp [validateChainId, hs, hp, hne]
        · by_cases hn : m ≤ 0
          · constructor
            · intro h
              exact absurd h (by simp [validateChainId, hs, hp, hn])
            · rintro ⟨s', hss, hs'ne, hpn, hpos⟩
              obtain rfl : s = s' := Option.some.inj hss
              rw [hp] at hpn
              obtain rfl : m = n := Option.some.inj hpn
              exact absurd hpos (by omega)
          · constructor
            · intro h
              have hmn : m = n := by
                simpa [validateChainId, hs, hp, hn] using h
              subst hmn
              exact ⟨s, rfl, hne, hp, by omega⟩
            · rintro ⟨s', hss, hs'ne, hpn, hpos⟩
              obtain rfl : s = s' := Option.some.inj hss
              rw [hp] at hpn
              obtain rfl : m = n := Option.some.inj hpn
              simp [validateChainId, hs, hp, hn]
  · intro s
    rcases o with _ | t
    · simp [validateChainId]
    · by_cases hs : (t == "") = true
      · have hse : t = "" := by simpa using hs
        subst hse
        constructor
        · intro h
          exact absurd h (by simp [validateChainId])
        · rintro ⟨hts, hsne, _⟩
          obtain rfl : "" = s := Option.some.inj hts
          exact absurd rfl hsne
      · have hne : ¬(t = "") := by simpa using hs
        rcases hp : jsParseInt10 t with _ | m
        · constructor
          · intro h
            have hts : t = s := by
              simpa [validateChainId, hs, hp] using h
            subst hts
            exact ⟨rfl, hne, Or.inl hp⟩
          · intro ⟨hts, _, _⟩
            obtain rfl : t = s := Option.some.inj hts
            simp [validateChainId, hs, hp]
        · by_cases hn : m ≤ 0
          · constructor
            · intro h
              have hts : t = s := by
                simpa [validateChainId, hs, hp, hn] using h
              subst hts
              exact ⟨rfl, hne, Or.inr ⟨m, hp, hn⟩⟩
            · intro ⟨hts, _, _⟩
              obtain rfl : t = s := Option.some.inj hts
              simp [validateChainId, hs, hp, hn]
          · constructor
            · intro h
              exact absurd h (by simp [validateChainId, hs, hp, hn])
            · intro ⟨hts, _, hbad⟩
              obtain rfl : t = s := Option.some.inj hts
              rcases hbad with hbad | ⟨v, hv, hvle⟩
              · rw [hp] at hbad
                cases hbad
              · rw [hp] at hv
                obtain rfl : m = v := Option.some.inj hv
                exact absurd hvle hn
  · intro w fs hw hnot
    rcases hv : validateChainId o with _ | s | n
    · constructor
      · simp [verifyAndAddPredeploymentA, hw, hv]
      · simp [verifyAndAddPredeploymentB, hw, hv]
    · constructor
      · simp [verifyAndAddPredeploymentA, hw, hv]
      · simp [verifyAndAddPredeploymentB, hw, hv]
    · exact absurd hv (hnot n)

/-- C2, witness for the amended theorem at the concrete rejected input "0". -/
theorem claim2_amended_witness :
    validateChainId (some "0") = ChainIdCheck.invalid "0" :=
  ((claim2_amended_validator (some "0")).2.2.1 "0").mpr
    ⟨rfl, by decide, Or.inr ⟨0, by decide, by decide⟩⟩

/-! ## Claim C6 -/

/-- C6: on-chain verification fails exactly when one of the three checks
fails, in order (chain-id mismatch, empty bytecode, hash mismatch), each with
its own distinct cause, and the first failing check aborts the pipeline with
that error, leaving the file system unchanged. -/
theorem claim6_verification_checks (w : World) (url : String) (expected : Int) :
    ((verifyPredeploymentA w url expected).2 = none ↔
      ((w.rpc url).networkChainId = expected ∧
       hexDataLength (w.rpc url).code ≠ some 0 ∧
       w.keccak (w.rpc url).code = CODEHASH)) ∧
    ((w.rpc url).networkChainId ≠ expected →
      (verifyPredeploymentA w url expected).2 =
        some (PredeploymentError.chainIdMismatch expected (w.rpc url).networkChainId)) ∧
    ((w.rpc url).networkChainId = expected →
      hexDataLength (w.rpc url).code = some 0 →
      (verifyPredeploymentA w url expected).2 =
        some PredeploymentError.factoryNotDeployed) ∧
    ((w.rpc url).networkChainId = expected →
      hexDataLength (w.rpc url).code ≠ some 0 →
      w.keccak (w.rpc url).code ≠ CODEHASH →
      (verifyPredeploymentA w url expected).2 =
        some PredeploymentError.factoryDifferentBytecode) ∧
    ((PredeploymentError.chainIdMismatch expected (w.rpc url).networkChainId).message ≠
        PredeploymentError.factoryNotDeployed.message ∧
     (PredeploymentError.chainIdMismatch expected (w.rpc url).networkChainId).message ≠
        PredeploymentError.factoryDifferentBytecode.message ∧
     PredeploymentError.factoryNotDeployed.message ≠
        PredeploymentError.factoryDifferentBytecode.message) ∧
    (∀ (fs : FileSystem) (e : PredeploymentError),
      validateChainId w.env.CHAIN_ID = ChainIdCheck.ok expected →
      fs.existsPath (artifactPathOf expected) = false →
      w.env.RPC = some url → (url == "") = false →
      (verifyPredeploymentA w url expected).2 = some e →
      (verifyAndAddPredeploymentA w fs).err = some (ErrA.predeployment e) ∧
      (verifyAndAddPredeploymentA w fs).fs = fs) := by
  refine ⟨?_, ?_, ?_, ?_, ?_, ?_⟩
  · unfold verifyPredeploymentA
    by_cases h1 : (w.rpc url).networkChainId = expected
    · by_cases h2 : hexDataLength (w.rpc url).code = some 0
      · simp [h1, h2]
      · by_cases h3 : w.keccak (w.rpc url).code = CODEHASH <;> simp [h1, h2, h3]
    · simp [h1]
  · intro h1
    unfold verifyPredeploymentA
    simp [h1]
  · intro h1 h2
    unfold verifyPredeploymentA
    simp [h1, h2]
  · intro h1 h2 h3
    unfold verifyPredeploymentA
    simp [h1, h2, h3]
  · refine ⟨?_, ?_, ?_⟩
    · show ("Chain ID mismatch" : String) ≠ "Factory not deployed"
      decide
    · show ("Chain ID mismatch" : String) ≠ "Factory different bytecode"
      decide
    · show ("Factory not deployed" : String) ≠ "Factory different bytecode"
      decide
  · intro fs e hv hd hrpc hurl hver
    have hstep : rpcStepA w expected = verifyPredeploymentA w url expected := by
      unfold rpcStepA
      rw [hrpc]
      simp [hurl]
    rcases hpair : verifyPredeploymentA w url expected with ⟨logv, ov⟩
    rw [hpair] at hver hstep
    simp only [] at hver
    constructor <;>
      simp [verifyAndAddPredeploymentA, hv, hd, hstep, hver]

/-- C6, witness at a concrete world whose endpoint reports chain id 6 while 5
is expected: the first check fails with the chain-id-mismatch cause. -/
theorem claim6_witness :
    (verifyPredeploymentA worldMismatch "u" 5).2 =
      some (PredeploymentError.chainIdMismatch 5 6) := by
  have h := claim6_verification_checks worldMismatch "u" 5
  exact h.2.1 (by decide)

/-! ## Claim C7 -/

/-- C7: in variant B, RPC extraction returns the first element of the entry's
`rpc` list with an HTTP or HTTPS scheme, and `none` when the list is absent,
empty, or has no such element; and in the no-endpoint case the pipeline
proceeds to write the artifact without consulting any RPC endpoint. -/
theorem claim7_rpc_endpoint_extraction (cd : ChainData) :
    (∀ url, getRpcFromChainData cd = some url →
      isHttpUrl url = true ∧
      ∃ l, cd.rpc = some l ∧ ∃ i : Nat, l[i]? = some url ∧
        ∀ j : Nat, j < i → ∀ b, l[j]? = some b → isHttpUrl b = false) ∧
    (getRpcFromChainData cd = none ↔
      (cd.rpc = none ∨ ∃ l, cd.rpc = some l ∧ ∀ u ∈ l, isHttpUrl u = false)) ∧
    (∀ (w : World) (fs : FileSystem) (chainId : Int) (l : List ChainData)
        (entry : ChainData),
      validateChainId w.env.CHAIN_ID = ChainIdCheck.ok chainId →
      fs.existsPath (artifactPathOf chainId) = false →
      w.fetchResult = FetchOutcome.ok l →
      l.find? (fun item => item.chainId == chainId) = some entry →
      getRpcFromChainData entry = none →
      w.writeFails (artifactPathOf chainId) = false →
      (verifyAndAddPredeploymentB w fs).err = none ∧
      (verifyAndAddPredeploymentB w fs).fs.files =
        (artifactPathOf chainId, artifactFileContent) :: fs.files) := by
  refine ⟨?_, ?_, ?_⟩
  · intro url hurl
    unfold getRpcFromChainData at hurl
    rcases hrpc : cd.rpc with _ | rpcs
    · rw [hrpc] at hurl
      simp at hurl
    · rw [hrpc] at hurl
      by_cases hemp : rpcs.isEmpty = true
      · simp only [hemp, if_true] at hurl
        cases hurl
      · simp only [hemp, Bool.false_eq_true, if_false] at hurl
        obtain ⟨hp, i, hi, hfirst⟩ := find?_first _ _ _ hurl
        exact ⟨hp, rpcs, rfl, i, hi, hfirst⟩
  · rcases hrpc : cd.rpc with _ | rpcs
    · simp [getRpcFromChainData, hrpc]
    · by_cases hemp : rpcs.isEmpty
      · have : rpcs = [] := by simpa using hemp
        subst this
        simp [getRpcFromChainData, hrpc]
      · simp only [getRpcFromChainData, hrpc, hemp, Bool.false_eq_true, if_false]
        constructor
        · intro h
          refine Or.inr ⟨rpcs, rfl, ?_⟩
          intro u hu
          have h4 := List.find?_eq_none.mp h u hu
          rw [Bool.not_eq_true] at h4
          exact h4
        · intro h
          rcases h with h | ⟨l, hl, hall⟩
          · cases h
          · obtain rfl : rpcs = l := Option.some.inj hl
            apply List.find?_eq_none.mpr
            intro x hx
            rw [Bool.not_eq_true]
            exact hall x hx
  · intro w fs chainId l entry hv hd hf hfind hnone hsafe
    have hok := writeStepB_ok w fs chainId hsafe hd
    rcases hwr : writeStepB w fs chainId with ⟨fs1, log3, err3⟩
    rw [hwr] at hok
    obtain ⟨hok1, hok2⟩ := hok
    simp only [] at hok1 hok2
    constructor <;>
      simp [verifyAndAddPredeploymentB, hv, hd, hf, hfind, hnone, hwr, hok1, hok2]

/-- C7, witness: on an entry whose list has no HTTP(S) URL the extraction
returns no endpoint. -/
theorem claim7_witness :
    getRpcFromChainData ⟨5, some ["wss://a"]⟩ = none :=
  (claim7_rpc_endpoint_extraction ⟨5, some ["wss://a"]⟩).2.1.mpr
    (Or.inr ⟨["wss://a"], rfl, by decide⟩)

/-! ## Claim C1 -/

/-- C1: with a fault-free file system, the artifact file is written iff every
enabled validation step succeeds: the pipeline succeeds exactly when
`validationsPassA` holds; on success it adds exactly the artifact file for the
validated chain identifier (which did not previously exist) on top of the
starting files; and on any failure the file system is unchanged — in
particular a pre-existing artifact file is never overwritten or modified. -/
theorem claim1_artifact_iff_validations (w : World) (fs : FileSystem)
    (hsafe : ∀ p, w.writeFails p = false) :
    ((verifyAndAddPredeploymentA w fs).err = none ↔ validationsPassA w fs = true) ∧
    ((verifyAndAddPredeploymentA w fs).err = none →
      ∃ chainId : Int, validateChainId w.env.CHAIN_ID = ChainIdCheck.ok chainId ∧
        fs.existsPath (artifactPathOf chainId) = false ∧
        (verifyAndAddPredeploymentA w fs).fs.files =
          (artifactPathOf chainId, artifactFileContent) :: fs.files) ∧
    (∀ e, (verifyAndAddPredeploymentA w fs).err = some e →
      (verifyAndAddPredeploymentA w fs).fs = fs) := by
  refine ⟨pipeA_err_none_iff w fs hsafe, ?_, pipeA_fail_fs w fs hsafe⟩
  intro hnone
  have hpass : validationsPassA w fs = true := (pipeA_err_none_iff w fs hsafe).mp hnone
  unfold validationsPassA at hpass
  rcases hv : validateChainId w.env.CHAIN_ID with _ | s | cid
  · rw [hv] at hpass
    cases hpass
  · rw [hv] at hpass
    cases hpass
  · rw [hv] at hpass
    have hsplit : (!fs.existsPath (artifactPathOf cid)) = true ∧
        rpcStepPasses w cid = true ∧ chainlistPasses w cid = true := by
      simpa [Bool.and_eq_true, and_assoc] using hpass
    obtain ⟨hd0, hr, hc⟩ := hsplit
    have hd : fs.existsPath (artifactPathOf cid) = false := by simpa using hd0
    exact ⟨cid, rfl, hd, (pipeA_success w fs cid hv hd hr hc (hsafe _)).2⟩


/-- C1, witness at a concrete passing world: the artifact for chain 7 is
created from an empty file system. -/
theorem claim1_witness :
    (verifyAndAddPredeploymentA worldOk emptyFs).err = none ↔
      validationsPassA worldOk emptyFs = true :=
  (claim1_artifact_iff_validations worldOk emptyFs (fun _ => rfl)).1

/-! ## Claim C3 -/

/-- C3: given a valid identifier, no existing artifact, an RPC verification
step that is skipped or passes, a registry fetch that succeeds and lists the
identifier, and a fault-free file system, the run succeeds: the summary
reports success, exactly one artifact file is created at
`artifacts/<chainId>/deployment.json`, and its content is exactly the fixed
artifact record (zero gas fields, zero signer address, `0x` transaction, the
well-known factory address) serialised as tab-indented JSON with a trailing
newline. -/
theorem claim3_success_creates_artifact (w : World) (fs : FileSystem)
    (chainId : Int) (l : List ChainData)
    (hv : validateChainId w.env.CHAIN_ID = ChainIdCheck.ok chainId)
    (hd : fs.existsPath (artifactPathOf chainId) = false)
    (hr : rpcStepPasses w chainId = true)
    (hf : w.fetchResult = FetchOutcome.ok l)
    (hmem : l.any (fun item => item.chainId == chainId) = true)
    (hsafe : ∀ p, w.writeFails p = false) :
    (addPredeploymentA w fs).summary.success = true ∧
    (addPredeploymentA w fs).fs.files =
      (artifactPathOf chainId, artifactFileContent) :: fs.files ∧
    artifactPathOf chainId = "artifacts/" ++ toString chainId ++ "/deployment.json" ∧
    artifactFileContent =
      stringifyArtifactTabs
        ⟨0, 0, "0x0000000000000000000000000000000000000000", "0x", ADDRESS⟩ ++ "\n" := by
  have hc : chainlistPasses w chainId = true := by
    unfold chainlistPasses
    by_cases hskip : (w.env.SKIP_CHAINLIST_CHECK == some "true") = true
    · simp [hskip]
    · simp [hskip, hf, hmem]
  have hsucc := pipeA_success w fs chainId hv hd hr hc (hsafe _)
  obtain ⟨hfs, hiff, _, _⟩ := runA_fields w fs
  exact ⟨hiff.mpr hsucc.1, by rw [hfs]; exact hsucc.2, rfl, rfl⟩

/-- C3, witness at the concrete passing world `worldOk` (no RPC endpoint,
chainlist fetch succeeding and listing 7; the skip flag is irrelevant to the
hypotheses). -/
theorem claim3_witness :
    (addPredeploymentA worldOk emptyFs).summary.success = true ∧
    (addPredeploymentA worldOk emptyFs).fs.files =
      (artifactPathOf 7, artifactFileContent) :: emptyFs.files ∧
    artifactPathOf 7 = "artifacts/" ++ toString (7 : Int) ++ "/deployment.json" ∧
    artifactFileContent =
      stringifyArtifactTabs
        ⟨0, 0, "0x0000000000000000000000000000000000000000", "0x", ADDRESS⟩ ++ "\n" :=
  claim3_success_creates_artifact worldOk emptyFs 7 [⟨7, none⟩]
    (by decide) (by decide) (by decide) rfl (by decide) (fun _ => rfl)

/-! ## Claim C8 -/

/-- C8: running the pipeline twice with the same (validated) chain identifier
succeeds on the first run and fails on the second with the
"Artifact already exists" cause, whatever the second run's other inputs are,
and the second run leaves the file system — in particular the artifact
written by the first run — unchanged. -/
theorem claim8_second_run_fails (w1 w2 : World) (fs : FileSystem) (chainId : Int)
    (h1 : validateChainId w1.env.CHAIN_ID = ChainIdCheck.ok chainId)
    (h2 : validateChainId w2.env.CHAIN_ID = ChainIdCheck.ok chainId)
    (hd : fs.existsPath (artifactPathOf chainId) = false)
    (hr : rpcStepPasses w1 chainId = true)
    (hc : chainlistPasses w1 chainId = true)
    (hsafe : ∀ p, w1.writeFails p = false) :
    (verifyAndAddPredeploymentA w1 fs).err = none ∧
    (verifyAndAddPredeploymentA w2 (verifyAndAddPredeploymentA w1 fs).fs).err =
      some (ErrA.predeployment (PredeploymentError.artifactAlreadyExists chainId)) ∧
    (verifyAndAddPredeploymentA w2 (verifyAndAddPredeploymentA w1 fs).fs).fs =
      (verifyAndAddPredeploymentA w1 fs).fs := by
  have hsucc := pipeA_success w1 fs chainId h1 hd hr hc (hsafe _)
  rcases hrun : verifyAndAddPredeploymentA w1 fs with ⟨fs1, log1, err1⟩
  rw [hrun] at hsucc
  obtain ⟨he1, hf1⟩ := hsucc
  simp only [] at he1 hf1
  have hex : fs1.existsPath (artifactPathOf chainId) = true :=
    existsPath_of_head _ _ _ _ hf1
  refine ⟨he1, ?_, ?_⟩ <;>
    simp [verifyAndAddPredeploymentA, h2, hex]

/-- C8, witness: concrete first run for chain 7 from the empty file system,
then a second run (same world) that fails with the duplicate cause. -/
theorem claim8_witness :
    (verifyAndAddPredeploymentA worldOk emptyFs).err = none ∧
    (verifyAndAddPredeploymentA worldOk (verifyAndAddPredeploymentA worldOk emptyFs).fs).err =
      some (ErrA.predeployment (PredeploymentError.artifactAlreadyExists 7)) ∧
    (verifyAndAddPredeploymentA worldOk (verifyAndAddPredeploymentA worldOk emptyFs).fs).fs =
      (verifyAndAddPredeploymentA worldOk emptyFs).fs :=
  claim8_second_run_fails worldOk worldOk emptyFs 7
    (by decide) (by decide) (by decide) (by decide) (by decide) (fun _ => rfl)

/-! ## Claim C10 -/

/-- C10: the chainlist presence check is skipped iff `SKIP_CHAINLIST_CHECK`
is exactly the string "true": with the flag set to "true" the pipeline reaches
the artifact write without consulting the fetch result at all; with any other
value (unset, "TRUE", "1", ...) the check is enforced — the pipeline fails
with the "Chain not listed" cause when the identifier is absent from the
fetched registry, and propagates the fetch error when the fetch failed. -/
theorem claim10_skip_chainlist_flag (w : World) (fs : FileSystem) (chainId : Int)
    (hv : validateChainId w.env.CHAIN_ID = ChainIdCheck.ok chainId)
    (hd : fs.existsPath (artifactPathOf chainId) = false)
    (hr : (rpcStepA w chainId).2 = none)
    (hsafe : ∀ p, w.writeFails p = false) :
    (w.env.SKIP_CHAINLIST_CHECK = some "true" →
      (verifyAndAddPredeploymentA w fs).err = none) ∧
    (w.env.SKIP_CHAINLIST_CHECK ≠ some "true" →
      ∀ l, w.fetchResult = FetchOutcome.ok l →
        l.any (fun item => item.chainId == chainId) = false →
        (verifyAndAddPredeploymentA w fs).err =
          some (ErrA.predeployment (PredeploymentError.chainNotListed chainId)) ∧
        (verifyAndAddPredeploymentA w fs).fs = fs) ∧
    (w.env.SKIP_CHAINLIST_CHECK ≠ some "true" →
      ∀ status body, w.fetchResult = FetchOutcome.httpError status body →
        (verifyAndAddPredeploymentA w fs).err = some (ErrA.plain (httpErrMsg status)) ∧
        (verifyAndAddPredeploymentA w fs).fs = fs) := by
  have hrpass : rpcStepPasses w chainId = true := (rpcStepA_snd_none_iff w chainId).mp hr
  rcases hrp : rpcStepA w chainId with ⟨log1, oe⟩
  rw [hrp] at hr
  simp only [] at hr
  subst hr
  refine ⟨?_, ?_, ?_⟩
  · intro hskip
    have hc : chainlistPasses w chainId = true := by
      simp [chainlistPasses, hskip]
    exact (pipeA_success w fs chainId hv hd hrpass hc (hsafe _)).1
  · intro hskip l hf hany
    have hskipb : (w.env.SKIP_CHAINLIST_CHECK == some "true") = false := by
      simpa using hskip
    constructor <;>
      simp [verifyAndAddPredeploymentA, chainlistStepA, hv, hd, hrp, hskipb, hf, hany]
  · intro hskip status body hf
    have hskipb : (w.env.SKIP_CHAINLIST_CHECK == some "true") = false := by
      simpa using hskip
    constructor <;>
      simp [verifyAndAddPredeploymentA, chainlistStepA, hv, hd, hrp, hskipb, hf]

/-- C10, witness: a world with `SKIP_CHAINLIST_CHECK=TRUE` (not the exact
string "true") and a fetched registry without the identifier fails with the
"Chain not listed" cause. -/
theorem claim10_witness :
    (verifyAndAddPredeploymentA
        ⟨⟨some "7", none, some "TRUE", none⟩, FetchOutcome.ok [⟨8, none⟩],
         fun _ => ⟨7, "0x6001"⟩, fun _ => CODEHASH, fun _ => false⟩ emptyFs).err =
      some (ErrA.predeployment (PredeploymentError.chainNotListed 7)) :=
  ((claim10_skip_chainlist_flag
      ⟨⟨some "7", none, some "TRUE", none⟩, FetchOutcome.ok [⟨8, none⟩],
       fun _ => ⟨7, "0x6001"⟩, fun _ => CODEHASH, fun _ => false⟩ emptyFs 7
      (by decide) (by decide) (by decide) (fun _ => rfl)).2.1
    (by decide) [⟨8, none⟩] rfl (by decide)).1

/-! ## Claim C4 -/

/-- C4 counterexample world: valid chain id 1, no RPC endpoint, chainlist
check enabled, fetch answering HTTP 500 with body "Internal Server Error". -/
def worldC4 : World :=
  ⟨⟨some "1", none, none, none⟩,
   FetchOutcome.httpError 500 "Internal Server Error",
   fun _ => ⟨1, "0x"⟩, fun _ => "", fun _ => false⟩

/-- C4, counterexample: on a fetch answering HTTP 500 with body
"Internal Server Error", the pipeline fails and its failure message contains
"500" but does NOT contain the response body — the body is only printed to the
console log, while the thrown error message is
`HTTP 500 error retrieving chain list.`. -/
theorem claim4_counterexample :
    (addPredeploymentA worldC4 emptyFs).summary.success = false ∧
    strContains (addPredeploymentA worldC4 emptyFs).summary.commentOutput
      "500" = true ∧
    strContains (addPredeploymentA worldC4 emptyFs).summary.commentOutput
      "Internal Server Error" = false := by decide

/-- C4 (amended): whenever the registry fetch returns a non-2xx status, the
pipeline fails before writing anything; the failure message contains the HTTP
status code; the response body appears in the console log (the
`console.log` of status and body made before throwing) but not in the failure
message, which is exactly the unexpected-error rendering of
`HTTP <status> error retrieving chain list.`. -/
theorem claim4_amended_fetch_error (w : World) (fs : FileSystem) (chainId : Int)
    (status : Nat) (body : String)
    (hv : validateChainId w.env.CHAIN_ID = ChainIdCheck.ok chainId)
    (hd : fs.existsPath (artifactPathOf chainId) = false)
    (hr : (rpcStepA w chainId).2 = none)
    (hskip : w.env.SKIP_CHAINLIST_CHECK ≠ some "true")
    (hf : w.fetchResult = FetchOutcome.httpError status body) :
    (addPredeploymentA w fs).summary.success = false ∧
    (addPredeploymentA w fs).summary.commentOutput =
      unexpectedComment (httpErrMsg status) ∧
    strContains (addPredeploymentA w fs).summary.commentOutput
      (toString status) = true ∧
    chainlistFetchLog status body ∈ (addPredeploymentA w fs).log ∧
    strContains (chainlistFetchLog status body) body = true ∧
    (addPredeploymentA w fs).fs = fs := by
  have hskipb : (w.env.SKIP_CHAINLIST_CHECK == some "true") = false := by
    simpa using hskip
  have herr : (verifyAndAddPredeploymentA w fs).err =
      some (ErrA.plain (httpErrMsg status)) ∧
      (verifyAndAddPredeploymentA w fs).fs = fs ∧
      chainlistFetchLog status body ∈ (verifyAndAddPredeploymentA w fs).log := by
    rcases hrp : rpcStepA w chainId with ⟨log1, oe⟩
    rw [hrp] at hr
    simp only [] at hr
    subst hr
    refine ⟨?_, ?_, ?_⟩ <;>
      simp [verifyAndAddPredeploymentA, chainlistStepA, hv, hd, hrp, hskipb, hf]
  obtain ⟨hfs, hiff, hplain, hlog⟩ := runA_fields w fs
  have hcomment := hplain _ herr.1
  refine ⟨?_, hcomment, ?_, ?_, ?_, ?_⟩
  · cases hsv : (addPredeploymentA w fs).summary.success
    · rfl
    · exact absurd (hiff.mp hsv) (by simp [herr.1])
  · rw [hcomment]
    apply strContains_of_data_eq _ _
      ((errHeader ++
        "Unexpected error adding pre-deployment.<br>Error Details: Error: " ++
        "HTTP ").data)
      (" error retrieving chain list.".data)
    simp [unexpectedComment, httpErrMsg, string_data_append, List.append_assoc]
  · rw [hlog]
    exact List.mem_append_left _ herr.2.2
  · apply strContains_of_data_eq _ _
      (("\x7b status: " ++ toString status ++ ", body: ").data) (" \x7d".data)
    simp [chainlistFetchLog, string_data_append, List.append_assoc]
  · rw [hfs]
    exact herr.2.1

/-- C4, witness for the amended theorem at the concrete counterexample
world. -/
theorem claim4_amended_witness :
    (addPredeploymentA worldC4 emptyFs).summary.commentOutput =
      unexpectedComment (httpErrMsg 500) ∧
    chainlistFetchLog 500 "Internal Server Error" ∈
      (addPredeploymentA worldC4 emptyFs).log ∧
    strContains (chainlistFetchLog 500 "Internal Server Error")
      "Internal Server Error" = true := by
  have h := claim4_amended_fetch_error worldC4 emptyFs 1 500 "Internal Server Error"
    (by decide) (by decide) (by decide) (by decide) rfl
  exact ⟨h.2.1, h.2.2.2.1, h.2.2.2.2.1⟩

/-! ## Claim C5 -/

/-- C5 counterexample world: the pipeline succeeds for chain 9 (chainlist
skipped, no RPC), a summary file is configured at "out", and the write to
"out" fails. -/
def worldC5 : World :=
  ⟨⟨some "9", none, some "true", some "out"⟩, FetchOutcome.ok [],
   fun _ => ⟨9, "0x6001"⟩, fun _ => CODEHASH, fun p => p == "out"⟩

/-- C5, counterexample: the produced run summary records success = true, yet
the process exit status is non-zero — the summary-file write throws inside the
`finally` block, `process.exitCode = 1` is skipped, and the escaped error
ends the process with a failure status (the spec-modelled behaviour of the
outer `runScript` wrapper: non-zero on any failure). -/
theorem claim5_counterexample :
    (addPredeploymentA worldC5 emptyFs).summary.success = true ∧
    runScriptExitCode (addPredeploymentA worldC5 emptyFs) ≠ 0 := by decide

/-- C5 (amended): whenever the summary-file write does not fail, the process
exit status is non-zero exactly when the produced run summary has
success = false (and zero exactly when success = true); nothing escapes the
orchestrator in that case. -/
theorem claim5_amended_exit_code (w : World) (fs : FileSystem)
    (hsw : summaryWriteSafe w) :
    (addPredeploymentA w fs).escaped = none ∧
    (runScriptExitCode (addPredeploymentA w fs) ≠ 0 ↔
      (addPredeploymentA w fs).summary.success = false) := by
  rcases he : (verifyAndAddPredeploymentA w fs).err with _ | e
  · rcases hsf : w.env.SUMMARY_FILE with _ | sf
    · simp [addPredeploymentA, runScriptExitCode, he, hsf]
    · by_cases hemp : (sf == "") = true
      · simp [addPredeploymentA, runScriptExitCode, he, hsf, hemp]
      · have hwf : w.writeFails sf = false := hsw sf hsf (by simpa using hemp)
        simp [addPredeploymentA, runScriptExitCode, he, hsf, hemp, hwf]
  · rcases e with e | m <;> (
      rcases hsf : w.env.SUMMARY_FILE with _ | sf
      · simp [addPredeploymentA, runScriptExitCode, he, hsf]
      · by_cases hemp : (sf == "") = true
        · simp [addPredeploymentA, runScriptExitCode, he, hsf, hemp]
        · have hwf : w.writeFails sf = false := hsw sf hsf (by simpa using hemp)
          simp [addPredeploymentA, runScriptExitCode, he, hsf, hemp, hwf])

/-- C5, witness for the amended theorem at a concrete fault-free world. -/
theorem claim5_amended_witness :
    (addPredeploymentA worldOk emptyFs).escaped = none ∧
    (runScriptExitCode (addPredeploymentA worldOk emptyFs) ≠ 0 ↔
      (addPredeploymentA worldOk emptyFs).summary.success = false) :=
  claim5_amended_exit_code worldOk emptyFs (fun _ _ _ => rfl)

/-! ## Claim C9 -/

/-- C9 counterexample world: pipeline succeeds for chain 7, summary file
"summary.json" configured, and the write to it fails. -/
def worldC9 : World :=
  ⟨⟨some "7", none, some "true", some "summary.json"⟩, FetchOutcome.ok [],
   fun _ => ⟨7, "0x6001"⟩, fun _ => CODEHASH, fun p => p == "summary.json"⟩

/-- C9, counterexample: an error raised while writing the summary file in the
`finally` block escapes `addPredeployment` uncaught — it is not converted
into a success = false run summary (the produced summary even records
success = true), so the orchestrator is not the sole error boundary. -/
theorem claim9_counterexample :
    (addPredeploymentA worldC9 emptyFs).escaped =
      some (fsWriteErrMsg "summary.json") ∧
    (addPredeploymentA worldC9 emptyFs).summary.success = true := by decide

/-- C9 (amended): every failure raised inside the pipeline body
(`verifyAndAddPredeployment`) is caught by the orchestrator and converted
into a run summary with success = false; the only error that can escape the
orchestrator uncaught is a failing summary-file write in the `finally` block,
and when that write is safe nothing escapes. -/
theorem claim9_amended_error_boundary (w : World) (fs : FileSystem) :
    ((addPredeploymentA w fs).escaped = none ∨
      ∃ sf, w.env.SUMMARY_FILE = some sf ∧ sf ≠ "" ∧ w.writeFails sf = true ∧
        (addPredeploymentA w fs).escaped = some (fsWriteErrMsg sf)) ∧
    (∀ e, (verifyAndAddPredeploymentA w fs).err = some e →
      (addPredeploymentA w fs).summary.success = false) ∧
    (summaryWriteSafe w → (addPredeploymentA w fs).escaped = none) := by
  obtain ⟨hfs, hiff, hplain, hlog⟩ := runA_fields w fs
  refine ⟨?_, ?_, ?_⟩
  · rcases hsf : w.env.SUMMARY_FILE with _ | sf
    · left
      simp [addPredeploymentA, hsf]
    · by_cases hemp : (sf == "") = true
      · left
        simp [addPredeploymentA, hsf, hemp]
      · by_cases hwf : w.writeFails sf = true
        · right
          exact ⟨sf, rfl, by simpa using hemp, hwf,
            by simp [addPredeploymentA, hsf, hemp, hwf]⟩
        · left
          simp [addPredeploymentA, hsf, hemp, hwf]
  · intro e he
    cases hsv : (addPredeploymentA w fs).summary.success
    · rfl
    · exact absurd (hiff.mp hsv) (by simp [he])
  · intro hsw
    rcases hsf : w.env.SUMMARY_FILE with _ | sf
    · simp [addPredeploymentA, hsf]
    · by_cases hemp : (sf == "") = true
      · simp [addPredeploymentA, hsf, hemp]
      · have hwf : w.writeFails sf = false := hsw sf hsf (by simpa using hemp)
        simp [addPredeploymentA, hsf, hemp, hwf]

/-- C9, witness for the amended theorem at a concrete fault-free world. -/
theorem claim9_amended_witness :
    (addPredeploymentA worldOk emptyFs).escaped = none :=
  (claim9_amended_error_boundary worldOk emptyFs).2.2 (fun _ _ _ => rfl)

end SafeSingletonFactory
